import Mathlib

/-!
Verification development for the `numpy-api-bench` repository.

The repository's observable code is the libcheck test suite
`src/check/timeitresult_suite.c` for the `TimeitResult` native extension type.
We give a shallow embedding of the suite factory `make_timeitresult_suite`
(with a small model of the libcheck primitives it calls), and a model of the
`TimeitResult` core operations (`TimeitResult_validate_unit`,
`TimeitResult_dealloc`, `TimeitResult_new`) whose implementation file is not
present in the repository and is therefore modelled from the spec.

The C `double` timeout and timing values are modelled as `ℚ` (every C double
value occurring here is an ordinary finite number and only order comparisons
matter, so rationals are a faithful shallow embedding).
-/

/-- Names of the unit-test functions defined in `timeitresult_suite.c`
(`START_TEST(test_validate_unit)`, `START_TEST(test_dealloc)`,
`START_TEST(test_new)`). -/
inductive TestName
  | test_validate_unit
  | test_dealloc
  | test_new
deriving DecidableEq, Repr

/-- Kind of a libcheck fixture: `tcase_add_checked_fixture` registers a
checked fixture, `tcase_add_unchecked_fixture` an unchecked one. -/
inductive FixtureKind
  | checked
  | unchecked
deriving DecidableEq, Repr

/-- A fixture registered on a libcheck test case: its kind and the names of
its setup and teardown functions. -/
structure Fixture where
  kind : FixtureKind
  setup : String
  teardown : String
deriving DecidableEq, Repr

/-- A libcheck `TCase`: name, timeout (seconds), registered fixtures, and the
tests added to it, in registration order. -/
structure TCase where
  name : String
  timeout : ℚ
  fixtures : List Fixture
  tests : List TestName
deriving DecidableEq, Repr

/-- A libcheck `Suite`: its name and its test cases, in registration order. -/
structure Suite where
  name : String
  tcases : List TCase
deriving DecidableEq, Repr

/-- Model of libcheck `suite_create`: a fresh suite with the given name and
no test cases. -/
def suite_create (name : String) : Suite :=
  { name := name, tcases := [] }

/-- Model of libcheck `tcase_create`: a fresh test case with the given name,
libcheck's default timeout of 4 seconds, and no fixtures or tests. -/
def tcase_create (name : String) : TCase :=
  { name := name, timeout := 4, fixtures := [], tests := [] }

/-- Model of libcheck `tcase_set_timeout`: replaces the test case's timeout. -/
def tcase_set_timeout (tc : TCase) (timeout : ℚ) : TCase :=
  { tc with timeout := timeout }

/-- Model of libcheck `tcase_add_checked_fixture`: appends a checked fixture
with the given setup and teardown functions. -/
def tcase_add_checked_fixture (tc : TCase) (setup teardown : String) : TCase :=
  { tc with fixtures := tc.fixtures ++ [⟨FixtureKind.checked, setup, teardown⟩] }

/-- Model of libcheck `tcase_add_test`: appends a test to the test case. -/
def tcase_add_test (tc : TCase) (t : TestName) : TCase :=
  { tc with tests := tc.tests ++ [t] }

/-- Model of libcheck `suite_add_tcase`: appends a test case to the suite. -/
def suite_add_tcase (s : Suite) (tc : TCase) : Suite :=
  { s with tcases := s.tcases ++ [tc] }

/-- Libcheck fixture semantics (per the libcheck documentation): when a test
case is run, a checked fixture's setup function runs once per unit test, in
the forked child address space, while an unchecked fixture's setup function
runs once per test case, before all of its unit tests. This function gives
the number of times the fixture's setup runs during one run of `tc`. -/
def Fixture.setupRunCount (f : Fixture) (tc : TCase) : Nat :=
  match f.kind with
  | FixtureKind.checked => tc.tests.length
  | FixtureKind.unchecked => 1

/-- Shallow embedding of `make_timeitresult_suite` from
`src/check/timeitresult_suite.c` (lines 121-145). The C function returns
`Suite *` (`NULL` on error) and prints an error line to `stderr` for a
non-positive timeout; we return the optional suite together with the list of
stderr lines it printed. -/
def make_timeitresult_suite (timeout : ℚ) : Option Suite × List String :=
  if timeout ≤ 0 then
    (none, ["error: make_timeitresult_suite: timeout must be positive"])
  else
    let suite := suite_create "timeitresult_suite"
    let tc_py_core := tcase_create "py_core"
    let tc_c_core := tcase_create "c_core"
    let tc_py_core := tcase_set_timeout tc_py_core timeout
    let tc_c_core := tcase_set_timeout tc_c_core timeout
    let tc_py_core := tcase_add_checked_fixture tc_py_core "py_setup" "py_teardown"
    let tc_py_core := tcase_add_test tc_py_core TestName.test_dealloc
    let tc_py_core := tcase_add_test tc_py_core TestName.test_new
    let tc_c_core := tcase_add_test tc_c_core TestName.test_validate_unit
    let suite := suite_add_tcase suite tc_py_core
    let suite := suite_add_tcase suite tc_c_core
    (some suite, [])

/-!
## The `TimeitResult` core, modelled from the spec

The implementation file of the `TimeitResult` type (declared in
`timeitresult.h` and exercised by the tests above) is not present in the
repository; only its tests and the spec describe it. The definitions in this
section are therefore modelled from the spec.
-/

/-- Error classes of the embedding host runtime that the spec distinguishes:
`runtimeError` is the internal/contract error kind (Python `RuntimeError`),
`valueError` and `typeError` are the ordinary validation (standard
argument/value) error kinds. -/
inductive PyErr
  | runtimeError
  | valueError
  | typeError
deriving DecidableEq, Repr

/-- Whether an error class is of the validation kind (a standard
argument/value error) as opposed to the internal/contract kind. -/
def PyErr.isValidationError : PyErr → Bool
  | PyErr.runtimeError => false
  | PyErr.valueError => true
  | PyErr.typeError => true

/-- Modelled from the spec: the recognized unit set, "the fixed list of
accepted time-unit labels — nanoseconds (`nsec`), microseconds (`usec`),
milliseconds (`msec`), seconds (`sec`)". -/
def recognizedUnits : List String :=
  ["nsec", "usec", "msec", "sec"]

/-- Modelled from the spec: the unit validator `TimeitResult_validate_unit`,
whose implementation file is missing from the repository. "If the input is
absent (null/missing), returns false — absence is never valid. If the input
is present but not a member of the recognized unit set, returns false. If
the input is a recognized unit string, returns true." -/
def TimeitResult_validate_unit : Option String → Bool
  | none => false
  | some u => recognizedUnits.contains u

/-- Modelled from the spec: the `TimeitResult` value object holding "a timing
measurement (best time, repeat count, per-loop count, a precision/unit label,
and raw timing samples)". `number` is the spec's `loops`; `nrepeat` stands
for the spec's `repeat`, a Lean keyword. -/
structure TimeitResult where
  best : ℚ
  unit : String
  number : Int
  nrepeat : Int
  precision : Int
  all_runs : List ℚ
deriving DecidableEq, Repr

/-- Modelled from the spec: automatic unit derivation "from the magnitude of
`best` (smaller magnitude → finer-grained unit)", as "an explicit ordered
table of (threshold, unit) pairs" at the decade boundaries of powers of 1000
suggested by the spec's design notes (the original thresholds are absent from
the reviewed material). -/
def autoUnit (best : ℚ) : String :=
  if best < 1 / 1000000 then "nsec"
  else if best < 1 / 1000 then "usec"
  else if best < 1 then "msec"
  else "sec"

/-- Modelled from the spec: the argument container handed to the constructor
by the embedding boundary — `best`, `repeat` (here `nrepeat`), `loops` (here
`number`), `precision`, an optional `unit`, and the `all_runs` samples. -/
structure NewArgs where
  best : ℚ
  nrepeat : Int
  number : Int
  precision : Int
  unit : Option String
  all_runs : List ℚ
deriving DecidableEq, Repr

/-- Modelled from the spec: the constructor `TimeitResult_new`, whose
implementation file is missing from the repository. The embedding boundary
supplies a type handle and an argument container; an absent handle for
either is a programming-contract violation signalling the internal/contract
error kind (`RuntimeError`, per the tests in `timeitresult_suite.c`).
Otherwise "preconditions checked before any allocation: `best` finite and
≥ 0; `repeat` ≥ 1; `loops` ≥ 1; `precision` ≥ 0; `all_runs` length ==
`repeat`; if `unit` supplied, `UnitValidator.validate(unit)` must hold",
each violation an ordinary validation error; on success the object's fields
equal the inputs, with an omitted unit derived from `best`'s magnitude. The
type handle carries no data used here and is modelled as `Option Unit`. -/
def TimeitResult_new (type_handle : Option Unit) (args : Option NewArgs) :
    Except PyErr TimeitResult :=
  match type_handle with
  | none => Except.error PyErr.runtimeError
  | some _ =>
    match args with
    | none => Except.error PyErr.runtimeError
    | some a =>
      if a.best < 0 then Except.error PyErr.valueError
      else if a.nrepeat < 1 then Except.error PyErr.valueError
      else if a.number < 1 then Except.error PyErr.valueError
      else if a.precision < 0 then Except.error PyErr.valueError
      else if (a.all_runs.length : Int) ≠ a.nrepeat then
        Except.error PyErr.valueError
      else
        match a.unit with
        | some u =>
          if TimeitResult_validate_unit (some u) then
            Except.ok ⟨a.best, u, a.number, a.nrepeat, a.precision, a.all_runs⟩
          else Except.error PyErr.valueError
        | none =>
          Except.ok
            ⟨a.best, autoUnit a.best, a.number, a.nrepeat, a.precision,
             a.all_runs⟩

/-- Modelled from the spec: the release operation `TimeitResult_dealloc`,
whose implementation file is missing from the repository. "If `instance` is
absent (null), this is a programming-contract violation: it must signal a
fatal/internal error distinct from ordinary validation errors, rather than
doing nothing" — the tests in `timeitresult_suite.c` pin the error class to
`RuntimeError`. Otherwise it releases the owned resources and raises no
error. The result is the error raised, if any. -/
def TimeitResult_dealloc : Option TimeitResult → Option PyErr
  | none => some PyErr.runtimeError
  | some _ => none

/-!
## Helper lemmas
-/

/-- The suite that `make_timeitresult_suite` assembles on the positive-timeout
path, written out explicitly. -/
def builtSuite (timeout : ℚ) : Suite :=
  { name := "timeitresult_suite",
    tcases :=
      [{ name := "py_core", timeout := timeout,
         fixtures := [⟨FixtureKind.checked, "py_setup", "py_teardown"⟩],
         tests := [TestName.test_dealloc, TestName.test_new] },
       { name := "c_core", timeout := timeout, fixtures := [],
         tests := [TestName.test_validate_unit] }] }

/-- On a non-positive timeout, `make_timeitresult_suite` returns no suite and
prints the configuration error. -/
theorem make_suite_nonpos (timeout : ℚ) (h : timeout ≤ 0) :
    make_timeitresult_suite timeout =
      (none, ["error: make_timeitresult_suite: timeout must be positive"]) := by
  simp [make_timeitresult_suite, h]

/-- On a positive timeout, `make_timeitresult_suite` returns `builtSuite`
and prints nothing. -/
theorem make_suite_pos (timeout : ℚ) (h : 0 < timeout) :
    make_timeitresult_suite timeout = (some (builtSuite timeout), []) := by
  simp [make_timeitresult_suite, not_le.mpr h, suite_create, tcase_create,
    tcase_set_timeout, tcase_add_checked_fixture, tcase_add_test,
    suite_add_tcase, builtSuite]

/-- The automatically derived unit is always a member of the recognized unit
set. -/
theorem autoUnit_recognized (b : ℚ) :
    TimeitResult_validate_unit (some (autoUnit b)) = true := by
  unfold autoUnit
  split_ifs <;> rfl

/-!
## Claims
-/

/-- C1: for every timeout ≤ 0, `make_timeitresult_suite` returns no suite
(`NULL`) and reports a configuration error to the caller (an error line on
stderr); for every timeout > 0 it returns a non-null suite containing
exactly two test groups. -/
theorem C1_suite_factory_timeout (timeout : ℚ) :
    (timeout ≤ 0 →
      (make_timeitresult_suite timeout).1 = none ∧
      (make_timeitresult_suite timeout).2 ≠ []) ∧
    (0 < timeout →
      ∃ s, (make_timeitresult_suite timeout).1 = some s ∧
        s.tcases.length = 2) := by
  constructor
  · intro h
    rw [make_suite_nonpos timeout h]
    exact ⟨rfl, by simp⟩
  · intro h
    exact ⟨builtSuite timeout, by rw [make_suite_pos timeout h], rfl⟩

/-- Witness for C1 at the concrete timeouts -1 and 5. -/
theorem C1_suite_factory_timeout_witness :
    ((make_timeitresult_suite (-1)).1 = none ∧
      (make_timeitresult_suite (-1)).2 ≠ []) ∧
    (∃ s, (make_timeitresult_suite 5).1 = some s ∧ s.tcases.length = 2) :=
  ⟨(C1_suite_factory_timeout (-1)).1 (by norm_num),
   (C1_suite_factory_timeout 5).2 (by norm_num)⟩

/-- C9: for every timeout > 0, the timeout ceiling is applied uniformly —
every test group in the returned suite is given exactly the same timeout
value, the one passed in. -/
theorem C9_uniform_timeout (timeout : ℚ) (h : 0 < timeout) :
    ∃ s, (make_timeitresult_suite timeout).1 = some s ∧
      ∀ tc ∈ s.tcases, tc.timeout = timeout := by
  refine ⟨builtSuite timeout, by rw [make_suite_pos timeout h], ?_⟩
  intro tc htc
  simp only [builtSuite, List.mem_cons, List.mem_singleton,
    List.not_mem_nil] at htc
  rcases htc with h1 | h1 | h1
  · rw [h1]
  · rw [h1]
  · exact absurd h1 (by simp)

/-- Witness for C9 at the concrete timeout 5. -/
theorem C9_uniform_timeout_witness :
    ∃ s, (make_timeitresult_suite 5).1 = some s ∧
      ∀ tc ∈ s.tcases, tc.timeout = 5 :=
  C9_uniform_timeout 5 (by norm_num)

/-- C10: for every timeout > 0, the returned suite has a fixed,
input-independent structure: the test cases are exactly a group named
"py_core" containing exactly the tests `test_dealloc` and `test_new` (in
that order), followed by a group named "c_core" containing exactly
`test_validate_unit` and carrying no fixture. -/
theorem C10_suite_structure (timeout : ℚ) (h : 0 < timeout) :
    ∃ s, (make_timeitresult_suite timeout).1 = some s ∧
      ∃ tcp tcc, s.tcases = [tcp, tcc] ∧
        tcp.name = "py_core" ∧
        tcp.tests = [TestName.test_dealloc, TestName.test_new] ∧
        tcc.name = "c_core" ∧
        tcc.tests = [TestName.test_validate_unit] ∧
        tcc.fixtures = [] := by
  refine ⟨builtSuite timeout, by rw [make_suite_pos timeout h], ?_⟩
  exact ⟨_, _, rfl, rfl, rfl, rfl, rfl, rfl⟩

/-- Witness for C10 at the concrete timeout 5. -/
theorem C10_suite_structure_witness :
    ∃ s, (make_timeitresult_suite 5).1 = some s ∧
      ∃ tcp tcc, s.tcases = [tcp, tcc] ∧
        tcp.name = "py_core" ∧
        tcp.tests = [TestName.test_dealloc, TestName.test_new] ∧
        tcc.name = "c_core" ∧
        tcc.tests = [TestName.test_validate_unit] ∧
        tcc.fixtures = [] :=
  C10_suite_structure 5 (by norm_num)

/-- C2: the code attaches `py_setup`/`py_teardown` to the "py_core" group
with `tcase_add_checked_fixture` (line 137), and under libcheck fixture
semantics a checked fixture's setup runs once per unit test — here twice for
the two tests of the group, not once per group. This contradicts both the
claim and the function's own doc comment, which calls it an "unchecked
fixture (runs in same address space and only at start and end of test
case)". Evaluated at the concrete timeout 10. -/
theorem C2_checked_fixture_runs_per_test :
    ∃ s, (make_timeitresult_suite 10).1 = some s ∧
      ∃ tc, tc ∈ s.tcases ∧ tc.name = "py_core" ∧
        ∃ f, f ∈ tc.fixtures ∧ f.setup = "py_setup" ∧
          f.teardown = "py_teardown" ∧ f.kind = FixtureKind.checked ∧
          Fixture.setupRunCount f tc = 2 ∧
          ¬ Fixture.setupRunCount f tc = 1 := by
  refine ⟨builtSuite 10, by rw [make_suite_pos 10 (by norm_num)], ?_⟩
  refine ⟨_, List.mem_cons_self _ _, rfl,
    ⟨FixtureKind.checked, "py_setup", "py_teardown"⟩, ?_, rfl, rfl, rfl,
    rfl, by decide⟩
  exact List.mem_singleton.mpr rfl

/-- C3: releasing an absent instance signals the internal/contract error
kind (`RuntimeError`), which is not a validation error, and the call never
returns silently with no error raised. -/
theorem C3_dealloc_absent_runtime_error :
    TimeitResult_dealloc none = some PyErr.runtimeError ∧
    PyErr.isValidationError PyErr.runtimeError = false ∧
    TimeitResult_dealloc none ≠ none :=
  ⟨rfl, rfl, by simp [TimeitResult_dealloc]⟩

/-- C4: for every argument container, the constructor called with an absent
type handle signals the internal/contract error kind (`RuntimeError`),
which is not a validation error. -/
theorem C4_new_absent_type_runtime_error (args : Option NewArgs) :
    TimeitResult_new none args = Except.error PyErr.runtimeError ∧
    PyErr.isValidationError PyErr.runtimeError = false :=
  ⟨rfl, rfl⟩

/-- C5: for every type handle, the constructor called with an absent
argument container signals the internal/contract error kind
(`RuntimeError`), which is not a validation error. -/
theorem C5_new_absent_args_runtime_error (t : Unit) :
    TimeitResult_new (some t) none = Except.error PyErr.runtimeError ∧
    PyErr.isValidationError PyErr.runtimeError = false :=
  ⟨rfl, rfl⟩

/-- C6: the unit validator applied to an absent input returns false. -/
theorem C6_validate_unit_absent :
    TimeitResult_validate_unit none = false :=
  rfl

/-- C7: the unit validator returns true exactly on the recognized unit
strings "nsec", "usec", "msec" and "sec", and false on any present string
outside that set, in particular "foobar". -/
theorem C7_validate_unit_recognized (u : String) :
    (TimeitResult_validate_unit (some u) = true ↔ u ∈ recognizedUnits) ∧
    TimeitResult_validate_unit (some "nsec") = true ∧
    TimeitResult_validate_unit (some "usec") = true ∧
    TimeitResult_validate_unit (some "msec") = true ∧
    TimeitResult_validate_unit (some "sec") = true ∧
    TimeitResult_validate_unit (some "foobar") = false := by
  refine ⟨?_, rfl, rfl, rfl, rfl, rfl⟩
  simp [TimeitResult_validate_unit]

/-- C8: for all valid inputs — `best` ≥ 0 (finiteness is implicit in the
rational model), `repeat` ≥ 1, `loops` ≥ 1, `precision` ≥ 0, `all_runs`
length equal to `repeat`, and the unit either omitted or recognized —
construction succeeds and the resulting object's fields equal the inputs
exactly; when the unit is omitted, the resulting unit is the one derived
from `best`'s magnitude and is itself a recognized unit. -/
theorem C8_new_valid_inputs (a : NewArgs)
    (hbest : 0 ≤ a.best) (hrep : 1 ≤ a.nrepeat) (hnum : 1 ≤ a.number)
    (hprec : 0 ≤ a.precision)
    (hlen : (a.all_runs.length : Int) = a.nrepeat)
    (hunit : ∀ u, a.unit = some u → TimeitResult_validate_unit (some u) = true) :
    ∃ r, TimeitResult_new (some ()) (some a) = Except.ok r ∧
      r.best = a.best ∧ r.nrepeat = a.nrepeat ∧ r.number = a.number ∧
      r.precision = a.precision ∧ r.all_runs = a.all_runs ∧
      (∀ u, a.unit = some u → r.unit = u) ∧
      (a.unit = none → r.unit = autoUnit a.best ∧
        TimeitResult_validate_unit (some r.unit) = true) := by
  have h1 : ¬ a.best < 0 := not_lt.mpr hbest
  have h2 : ¬ a.nrepeat < 1 := not_lt.mpr hrep
  have h3 : ¬ a.number < 1 := not_lt.mpr hnum
  have h4 : ¬ a.precision < 0 := not_lt.mpr hprec
  have h5 : ¬ ((a.all_runs.length : Int) ≠ a.nrepeat) := not_not.mpr hlen
  rcases hu : a.unit with _ | u
  · refine ⟨⟨a.best, autoUnit a.best, a.number, a.nrepeat, a.precision,
      a.all_runs⟩, ?_, rfl, rfl, rfl, rfl, rfl, ?_, ?_⟩
    · simp [TimeitResult_new, h1, h2, h3, h4, h5, hu, hlen]
    · exact fun u h => nomatch h
    · exact fun _ => ⟨rfl, autoUnit_recognized a.best⟩
  · have hv : TimeitResult_validate_unit (some u) = true := hunit u hu
    refine ⟨⟨a.best, u, a.number, a.nrepeat, a.precision, a.all_runs⟩, ?_,
      rfl, rfl, rfl, rfl, rfl, ?_, ?_⟩
    · simp [TimeitResult_new, h1, h2, h3, h4, h5, hu, hlen, hv]
    · intro u' h
      obtain rfl := Option.some_inj.mp h
      rfl
    · exact fun h => nomatch h

/-- Witness for C8 at a concrete valid input with the unit omitted. -/
theorem C8_new_valid_inputs_witness :
    ∃ r, TimeitResult_new (some ())
        (some ⟨0, 2, 100, 3, none, [1, 2]⟩) = Except.ok r ∧
      r.best = NewArgs.best ⟨0, 2, 100, 3, none, [1, 2]⟩ ∧
      r.nrepeat = NewArgs.nrepeat ⟨0, 2, 100, 3, none, [1, 2]⟩ ∧
      r.number = NewArgs.number ⟨0, 2, 100, 3, none, [1, 2]⟩ ∧
      r.precision = NewArgs.precision ⟨0, 2, 100, 3, none, [1, 2]⟩ ∧
      r.all_runs = NewArgs.all_runs ⟨0, 2, 100, 3, none, [1, 2]⟩ ∧
      (∀ u, NewArgs.unit ⟨0, 2, 100, 3, none, [1, 2]⟩ = some u →
        r.unit = u) ∧
      (NewArgs.unit ⟨0, 2, 100, 3, none, [1, 2]⟩ = none →
        r.unit = autoUnit (NewArgs.best ⟨0, 2, 100, 3, none, [1, 2]⟩) ∧
        TimeitResult_validate_unit (some r.unit) = true) :=
  C8_new_valid_inputs ⟨0, 2, 100, 3, none, [1, 2]⟩
    (by norm_num) (by norm_num) (by norm_num) (by norm_num) (by simp)
    (fun u h => nomatch h)
